import Mathlib

/-!
Verification of the business-date / aggregation / reset engine of the
group check-in bot (`database.py`, `main.py`).

The Python code is shallowly embedded: wall-clock reads (`datetime.now`),
configuration reads (`Config.*`, cached config queries) and the group row
fetched by `get_group_cached` become explicit parameters; the PostgreSQL
tables become lists of row structures; each SQL statement becomes a pure
state transformer translated from the statement text; `async with
conn.transaction()` becomes an explicit run-all-or-rollback wrapper.

A central fact about the source: the class `PostgreSQLDatabase` defines
`get_business_date` four times (lines 35, 1121, 1281, 2035).  Python keeps
the last definition, which is a placeholder whose body is `pass`, i.e. it
returns `None`; the real implementation at lines 35-68 is dead.  Both are
embedded below (`get_business_date` for the effective method,
`get_business_date_impl` for the shadowed implementation).
-/

/-! ## Calendar model

`datetime.date` becomes `CivilDate`; a timezone-aware `datetime` in the
fixed Beijing timezone becomes `DateTime` = date plus seconds after
midnight (all instants compared in the code are whole seconds, so this
granularity is exact). -/

structure CivilDate where
  year : Int
  month : Nat
  day : Nat
deriving DecidableEq

structure DateTime where
  date : CivilDate
  sod : Nat
deriving DecidableEq

def isLeap (y : Int) : Bool :=
  (y % 4 == 0 && y % 100 != 0) || y % 400 == 0

def daysInMonth (y : Int) (m : Nat) : Nat :=
  if m = 2 then (if isLeap y then 29 else 28)
  else if m = 4 ∨ m = 6 ∨ m = 9 ∨ m = 11 then 30
  else 31

/-- Python `(now - timedelta(days=1)).date()` for a `now` on day `d`. -/
def prevDay (d : CivilDate) : CivilDate :=
  if d.day > 1 then ⟨d.year, d.month, d.day - 1⟩
  else if d.month > 1 then ⟨d.year, d.month - 1, daysInMonth d.year (d.month - 1)⟩
  else ⟨d.year - 1, 12, 31⟩

/-- Strict `<` on dates (lexicographic on year, month, day). -/
def CivilDate.ltB (a b : CivilDate) : Bool :=
  (a.year < b.year) ||
  (a.year == b.year && (a.month < b.month ||
    (a.month == b.month && a.day < b.day)))

/-- Python `max(a, b)` on two dates: `b` when `a < b`, else `a`. -/
def CivilDate.maxD (a b : CivilDate) : CivilDate :=
  if CivilDate.ltB a b then b else a

/-- Truncation `d.replace(day=1)`: first day of `d`'s month. -/
def monthStart (d : CivilDate) : CivilDate :=
  ⟨d.year, d.month, 1⟩

/-- Day count since the civil epoch 1970-01-01 (standard civil-calendar
formula); used only to realise `datetime` subtraction, and only ever
evaluated at concrete modern dates. -/
def daysFromCivil (d : CivilDate) : Int :=
  let y : Int := if d.month ≤ 2 then d.year - 1 else d.year
  let era : Int := (if 0 ≤ y then y else y - 399) / 400
  let yoe : Int := y - era * 400
  let mp : Int := ((d.month : Int) + 9) % 12
  let doy : Int := (153 * mp + 2) / 5 + ((d.day : Int) - 1)
  let doe : Int := yoe * 365 + yoe / 4 - yoe / 100 + doy
  era * 146097 + doe - 719468

/-- Subtraction `int((a - b).total_seconds())` for two aware datetimes. -/
def secondsBetween (b a : DateTime) : Int :=
  (daysFromCivil a.date - daysFromCivil b.date) * 86400 +
    ((a.sod : Int) - (b.sod : Int))

/-! ## Business clock (`database.py`) -/

/-- The row of the `groups` table consulted by `get_business_date`
(only the fields it reads). -/
structure GroupRow where
  reset_hour : Nat
  reset_minute : Nat
deriving DecidableEq

/-- Method `get_business_date` as implemented at `database.py` lines 35-68:
take the group's reset hour/minute (falling back to the global defaults
when the group row is missing or the lookup fails), build the reset
instant on `now`'s calendar day, and attribute `now` to the previous day
exactly when `now` lies strictly before that instant.  This definition is
shadowed in the running program; see `get_business_date`. -/
def get_business_date_impl (defaultHour defaultMinute : Nat)
    (group : Option GroupRow) (now : DateTime) : CivilDate :=
  let resetHour := match group with
    | some g => g.reset_hour
    | none => defaultHour
  let resetMinute := match group with
    | some g => g.reset_minute
    | none => defaultMinute
  let resetSod := resetHour * 3600 + resetMinute * 60
  if now.sod < resetSod then prevDay now.date else now.date

/-- The `get_business_date` method that the running class actually has:
Python keeps the last of the four definitions in the class body, and the
last one (`database.py` lines 2035-2040) is a placeholder whose body is
`pass`, so every call returns `None`. -/
def get_business_date (_chat_id : Int) : Option CivilDate :=
  none

/-! ## Fine calculation (`main.py`) -/

/-- The tier walk of `calculate_fine` (`main.py` lines 818-835) applied to
one activity's configured segments (threshold minutes, amount): sort the
thresholds ascending, take the amount of the first threshold that
`overtime_minutes` is `<=`; when that leaves `applicable_fine == 0` (no
threshold matched, or the matched amount is itself 0) and the segment
list is non-empty, take the largest threshold's amount. -/
def calc_fine_for_segments (fine_segments : List (Nat × Int))
    (overtime_minutes : ℚ) : Int :=
  let segments : List Nat :=
    List.insertionSort (· ≤ ·) (fine_segments.map Prod.fst)
  let applicable : Int :=
    match segments.find? (fun (seg : Nat) => decide (overtime_minutes ≤ (seg : ℚ))) with
    | some seg => (fine_segments.lookup seg).getD 0
    | none => 0
  if applicable = 0 ∧ segments ≠ [] then
    match segments.getLast? with
    | some seg => (fine_segments.lookup seg).getD 0
    | none => applicable
  else applicable

/-- Function `calculate_fine(activity, overtime_minutes)` (`main.py` lines
818-835); `fine_rates` is the module-level dict mapping an activity name
to its segment dict. -/
def calculate_fine (fine_rates : List (String × List (Nat × Int)))
    (activity : String) (overtime_minutes : ℚ) : Int :=
  match fine_rates.lookup activity with
  | none => 0
  | some fine_segments => calc_fine_for_segments fine_segments overtime_minutes

/-- Function `calculate_work_fine(checkin_type, late_minutes)` (`main.py` lines
596-616): absolute value of the signed minute delta, then the hardcoded
60/120/180/240/max segment ladder over the configured per-checkin-type
amounts (with the literal fallback amounts of the source). -/
def calculate_work_fine (work_fine_rates : List (String × List (String × Int)))
    (checkin_type : String) (late_minutes : ℚ) : Int :=
  match work_fine_rates.lookup checkin_type with
  | none => 0
  | some fr =>
    let m := |late_minutes|
    if m ≤ 0 then 0
    else if m ≤ 60 then (fr.lookup "60").getD 50
    else if m ≤ 120 then (fr.lookup "120").getD 100
    else if m ≤ 180 then (fr.lookup "180").getD 200
    else if m ≤ 240 then (fr.lookup "240").getD 300
    else (fr.lookup "max").getD 500

/-! ## Database model

Each table becomes a list of row structures (columns the core logic
touches; `SERIAL id` and `created_at`/`updated_at` timestamps are
bookkeeping the claims never mention and are omitted).  `DATE` columns
that the code can feed `None` are `Option CivilDate`.  The
`activity_start_time` TEXT column always holds an isoformat timestamp
written by the bot and is modeled as the parsed instant; `checkin_time`
always holds a zero-padded `HH:MM` clock string and is modeled as
minutes after midnight (string order and numeric order agree). -/

structure DailyStatRow where
  chat_id : Int
  user_id : Int
  statistic_date : Option CivilDate
  activity_name : String
  activity_count : Int
  accumulated_time : Int
  is_soft_reset : Bool
deriving DecidableEq

structure UserActivityRow where
  chat_id : Int
  user_id : Int
  activity_date : Option CivilDate
  activity_name : String
  activity_count : Int
  accumulated_time : Int
deriving DecidableEq

structure MonthlyStatRow where
  chat_id : Int
  user_id : Int
  statistic_date : CivilDate
  activity_name : String
  activity_count : Int
  accumulated_time : Int
  work_days : Int
  work_hours : Int
deriving DecidableEq

structure UserRow where
  chat_id : Int
  user_id : Int
  current_activity : Option String
  activity_start_time : Option DateTime
  total_accumulated_time : Int
  total_activity_count : Int
  total_fines : Int
  overtime_count : Int
  total_overtime_time : Int
  last_updated : Option CivilDate
  checkin_message_id : Option Int
deriving DecidableEq

structure WorkRecordRow where
  chat_id : Int
  user_id : Int
  record_date : CivilDate
  checkin_type : String
  checkin_time : Nat
  status : String
  time_diff_minutes : ℚ
  fine_amount : Int
deriving DecidableEq

structure DBState where
  users : List UserRow
  user_activities : List UserActivityRow
  daily_statistics : List DailyStatRow
  monthly_statistics : List MonthlyStatRow
  work_records : List WorkRecordRow
deriving DecidableEq

/-- SQL comparison `date_column = $param` on a nullable DATE column, and
equally PostgreSQL's conflict test between a nullable key column of an
inserted row and an existing row (unique indexes treat NULLs as
distinct): true only when both sides are non-NULL and equal. -/
def sqlDateEq (col : Option CivilDate) (param : Option CivilDate) : Bool :=
  match col, param with
  | some a, some b => decide (a = b)
  | _, _ => false

/-- Apply `f` to the first element satisfying `p` (the row an
`ON CONFLICT ... DO UPDATE` clause updates; the unique constraint
guarantees at most one). -/
def updateFirst (p : α → Bool) (f : α → α) : List α → List α
  | [] => []
  | r :: rs => if p r then f r :: rs else r :: updateFirst p f rs

/-- Statement `INSERT ... ON CONFLICT (unique-key columns) DO UPDATE`: update the
conflicting row when one exists, otherwise append the new row. -/
def upsert (conflict : α → Bool) (doUpdate : α → α) (newRow : α)
    (l : List α) : List α :=
  if l.any conflict then updateFirst conflict doUpdate l else l ++ [newRow]

/-- Unique key of `daily_statistics`:
`(chat_id, user_id, statistic_date, activity_name, is_soft_reset)`. -/
def dsKey (chat user : Int) (d : Option CivilDate) (act : String)
    (soft : Bool) (r : DailyStatRow) : Bool :=
  decide (r.chat_id = chat) && decide (r.user_id = user) &&
    sqlDateEq r.statistic_date d && decide (r.activity_name = act) &&
    decide (r.is_soft_reset = soft)

/-- Unique key of `user_activities`:
`(chat_id, user_id, activity_date, activity_name)`. -/
def uaKey (chat user : Int) (d : Option CivilDate) (act : String)
    (r : UserActivityRow) : Bool :=
  decide (r.chat_id = chat) && decide (r.user_id = user) &&
    sqlDateEq r.activity_date d && decide (r.activity_name = act)

/-- Unique key of `monthly_statistics`:
`(chat_id, user_id, statistic_date, activity_name)` (every monthly write
in the code supplies a real first-of-month date). -/
def msKey (chat user : Int) (d : CivilDate) (act : String)
    (r : MonthlyStatRow) : Bool :=
  decide (r.chat_id = chat) && decide (r.user_id = user) &&
    decide (r.statistic_date = d) && decide (r.activity_name = act)

/-- Unique key of `work_records`:
`(chat_id, user_id, record_date, checkin_type)`. -/
def wrKey (chat user : Int) (d : CivilDate) (ty : String)
    (r : WorkRecordRow) : Bool :=
  decide (r.chat_id = chat) && decide (r.user_id = user) &&
    decide (r.record_date = d) && decide (r.checkin_type = ty)

/-- Query `SELECT * FROM users WHERE chat_id=$1 AND user_id=$2` (unique row). -/
def findUser (s : DBState) (chat user : Int) : Option UserRow :=
  s.users.find? (fun r => decide (r.chat_id = chat) && decide (r.user_id = user))

/-! ## Fan-out write engine: `complete_user_activity`
(`database.py` lines 644-827) -/

/-- The SQL statements executed (in order) inside the
`complete_user_activity` transaction, each as a state transformer.
`business_today` is the value of `await self.get_business_date(chat_id)`,
`real_today` the value of `self.get_beijing_date()`, `time_limit` the
value of `await self.get_activity_time_limit(activity)` (a configuration
read).  Statements 4-5 run only when `fine_amount > 0`, statements 6a-6b
only when `is_overtime`; statement 7 is the dynamically assembled
`UPDATE users` with its conditional fields. -/
def cua_stmts (business_today : Option CivilDate) (real_today : CivilDate)
    (time_limit : Int) (chat_id user_id : Int) (activity : String)
    (elapsed_time fine_amount : Int) (is_overtime : Bool) :
    List (DBState → DBState) :=
  let statistic_date := monthStart real_today
  let overtime_seconds : Int :=
    if is_overtime then max 0 (elapsed_time - time_limit * 60) else 0
  let stmt1 : DBState → DBState := fun s =>
    { s with daily_statistics :=
        (upsert (dsKey chat_id user_id business_today activity false)
          (fun r => { r with activity_count := r.activity_count + 1,
                             accumulated_time := r.accumulated_time + elapsed_time })
          ⟨chat_id, user_id, business_today, activity, 1, elapsed_time, false⟩
          s.daily_statistics) }
  let stmt2 : DBState → DBState := fun s =>
    { s with user_activities :=
        (upsert (uaKey chat_id user_id business_today activity)
          (fun r => { r with activity_count := r.activity_count + 1,
                             accumulated_time := r.accumulated_time + elapsed_time })
          ⟨chat_id, user_id, business_today, activity, 1, elapsed_time⟩
          s.user_activities) }
  let stmt3 : DBState → DBState := fun s =>
    { s with monthly_statistics :=
        (upsert (msKey chat_id user_id statistic_date activity)
          (fun r => { r with activity_count := r.activity_count + 1,
                             accumulated_time := r.accumulated_time + elapsed_time })
          ⟨chat_id, user_id, statistic_date, activity, 1, elapsed_time, 0, 0⟩
          s.monthly_statistics) }
  let stmt4 : DBState → DBState := fun s =>
    { s with daily_statistics :=
        (upsert (dsKey chat_id user_id business_today "total_fines" false)
          (fun r => { r with activity_count := r.activity_count + 1,
                             accumulated_time := r.accumulated_time + fine_amount })
          ⟨chat_id, user_id, business_today, "total_fines", 1, fine_amount, false⟩
          s.daily_statistics) }
  let stmt5 : DBState → DBState := fun s =>
    { s with monthly_statistics :=
        (upsert (msKey chat_id user_id statistic_date "total_fines")
          (fun r => { r with accumulated_time := r.accumulated_time + fine_amount })
          ⟨chat_id, user_id, statistic_date, "total_fines", 0, fine_amount, 0, 0⟩
          s.monthly_statistics) }
  let stmt6a : DBState → DBState := fun s =>
    { s with daily_statistics :=
        (upsert (dsKey chat_id user_id business_today "overtime_count" false)
          (fun r => { r with activity_count := r.activity_count + 1 })
          ⟨chat_id, user_id, business_today, "overtime_count", 1, 0, false⟩
          s.daily_statistics) }
  let stmt6b : DBState → DBState := fun s =>
    { s with daily_statistics :=
        (upsert (dsKey chat_id user_id business_today "overtime_time" false)
          (fun r => { r with accumulated_time := r.accumulated_time + overtime_seconds })
          ⟨chat_id, user_id, business_today, "overtime_time", 0, overtime_seconds, false⟩
          s.daily_statistics) }
  let stmt7 : DBState → DBState := fun s =>
    { s with users := (s.users.map (fun u =>
        if decide (u.chat_id = chat_id) && decide (u.user_id = user_id) then
          { u with total_accumulated_time := u.total_accumulated_time + elapsed_time,
                   total_activity_count := u.total_activity_count + 1,
                   current_activity := none,
                   activity_start_time := none,
                   last_updated := some real_today,
                   total_fines := u.total_fines +
                     (if fine_amount > 0 then fine_amount else 0),
                   overtime_count := u.overtime_count +
                     (if is_overtime then 1 else 0),
                   total_overtime_time := u.total_overtime_time +
                     (if is_overtime then overtime_seconds else 0) }
        else u)) }
  [stmt1, stmt2, stmt3]
    ++ (if fine_amount > 0 then [stmt4, stmt5] else [])
    ++ (if is_overtime then [stmt6a, stmt6b] else [])
    ++ [stmt7]

/-- Outcome of one database call: whether an exception reached the
caller, and the database state the caller observes afterwards. -/
structure CallResult where
  raised : Bool
  db : DBState
deriving DecidableEq

def runSteps : List (DBState → DBState) → DBState → DBState
  | [], s => s
  | f :: fs, s => runSteps fs (f s)

/-- Semantics of `async with conn.transaction()`: commit on normal exit; on an
exception raised anywhere inside the block, roll back every write issued
in the block and re-raise.  `failAt = some i` (with `i` below the
statement count) models an exception raised before the `i`-th statement
completes; the writes issued so far are discarded by the ROLLBACK. -/
def runTransaction (stmts : List (DBState → DBState)) (failAt : Option Nat)
    (s : DBState) : CallResult :=
  match failAt with
  | none => ⟨false, runSteps stmts s⟩
  | some i =>
      if i < stmts.length then
        let _issued := runSteps (stmts.take i) s
        ⟨true, s⟩
      else ⟨false, runSteps stmts s⟩

/-- Method `complete_user_activity` with an explicit failure oracle.
`complete_user_activity` contains no exception handler, so an exception
inside the transaction propagates to the caller. -/
def complete_user_activity_tx (real_today : CivilDate) (time_limit : Int)
    (chat_id user_id : Int) (activity : String)
    (elapsed_time fine_amount : Int) (is_overtime : Bool)
    (failAt : Option Nat) (s : DBState) : CallResult :=
  runTransaction
    (cua_stmts (get_business_date chat_id) real_today time_limit
      chat_id user_id activity elapsed_time fine_amount is_overtime)
    failAt s

/-- A successful `complete_user_activity` call as run by the program
(business date taken from the effective `get_business_date`). -/
def complete_user_activity (real_today : CivilDate) (time_limit : Int)
    (chat_id user_id : Int) (activity : String)
    (elapsed_time fine_amount : Int) (is_overtime : Bool)
    (s : DBState) : DBState :=
  (complete_user_activity_tx real_today time_limit chat_id user_id activity
    elapsed_time fine_amount is_overtime none s).db

/-- The same transaction body with the business date supplied explicitly:
what `complete_user_activity` computes once `get_business_date` resolves
to an actual date (i.e. with the shadowed lines 35-68 implementation in
effect). -/
def complete_user_activity_core (business_today : Option CivilDate)
    (real_today : CivilDate) (time_limit : Int) (chat_id user_id : Int)
    (activity : String) (elapsed_time fine_amount : Int) (is_overtime : Bool)
    (s : DBState) : DBState :=
  runSteps
    (cua_stmts business_today real_today time_limit chat_id user_id activity
      elapsed_time fine_amount is_overtime) s

def emptyDB : DBState := ⟨[], [], [], [], []⟩

/-! ## Hard reset: `reset_user_daily_data`
(`database.py` lines 832-1019) -/

/-- The `target_date` argument as a Python caller can pass it:
`None`, a `datetime.date`, or a value of some other type (represented by
its text, e.g. a string that was never parsed). -/
inductive PyDateArg
  | noneArg
  | dateArg (d : CivilDate)
  | otherArg (txt : String)
deriving DecidableEq

inductive PyErr
  | valueError
  | typeError
deriving DecidableEq

/-- The inline fine-tier walk of the cross-day settlement
(`database.py` lines 883-896): threshold keys (already normalised from
`"30"`/`"30min"` strings to their minute value) sorted ascending, first
threshold at least `overtime_sec/60` minutes wins, zero-or-no-match falls
back to the largest threshold; empty rate dict leaves the fine at 0. -/
def settle_fine (rates : List (Nat × Int)) (overtime_sec : Int) : Int :=
  if rates = [] then 0
  else
    let segments : List Nat :=
      List.insertionSort (· ≤ ·) (rates.map Prod.fst)
    let over_min : ℚ := Rat.divInt overtime_sec 60
    let fine : Int :=
      match segments.find? (fun (seg : Nat) => decide (over_min ≤ (seg : ℚ))) with
      | some seg => (rates.lookup seg).getD 0
      | none => 0
    if fine = 0 ∧ segments ≠ [] then
      match segments.getLast? with
      | some seg => (rates.lookup seg).getD 0
      | none => fine
    else fine

/-- Cross-day settlement of a single user's in-progress activity
(`database.py` lines 863-921): if the user row exists and carries a
current activity with a start timestamp, fold the elapsed seconds into
the MonthlyStatistics row keyed by the *activity start date's* month,
and, when there is overtime or a fine, bump the user's fine/overtime
counters.  `now` is `self.get_beijing_time()`, `time_limit` the
configured limit of the activity, `rates` its fine tiers. -/
def settle_cross_day (now : DateTime) (time_limit : Int)
    (rates : List (Nat × Int)) (chat user : Int) (s : DBState) : DBState :=
  match findUser s chat user with
  | none => s
  | some ub =>
    match ub.current_activity with
    | none => s
    | some act =>
      match ub.activity_start_time with
      | none => s
      | some start_time =>
        let elapsed := secondsBetween start_time now
        let overtime_sec := max 0 (elapsed - time_limit * 60)
        let fine := if overtime_sec > 0 then settle_fine rates overtime_sec else 0
        let activity_month := monthStart start_time.date
        let s1 := { s with monthly_statistics :=
            (upsert (msKey chat user activity_month act)
              (fun r => { r with activity_count := r.activity_count + 1,
                                 accumulated_time := r.accumulated_time + elapsed })
              ⟨chat, user, activity_month, act, 1, elapsed, 0, 0⟩
              s.monthly_statistics) }
        if fine > 0 ∨ overtime_sec > 0 then
          { s1 with users := (s1.users.map (fun u =>
              if decide (u.chat_id = chat) && decide (u.user_id = user) then
                { u with total_fines := u.total_fines + fine,
                         overtime_count := u.overtime_count +
                           (if overtime_sec > 0 then 1 else 0),
                         total_overtime_time := u.total_overtime_time + overtime_sec }
              else u)) }
        else s1

/-- Deletion and user-state reset of the single-user branch
(`database.py` lines 922-955): physically delete the user's
daily_statistics / user_activities / work_records rows for the target
date, then zero the user row (guarded so an already-clean row is left
untouched), stamping `last_updated` with `max(target_date,
current_business_date)`. -/
def reset_single_user_rows (target nlu : CivilDate) (chat user : Int)
    (s : DBState) : DBState :=
  let s1 := { s with daily_statistics := (s.daily_statistics.filter (fun r =>
      !(decide (r.chat_id = chat) && decide (r.user_id = user) &&
        sqlDateEq r.statistic_date (some target)))) }
  let s2 := { s1 with user_activities := (s1.user_activities.filter (fun r =>
      !(decide (r.chat_id = chat) && decide (r.user_id = user) &&
        sqlDateEq r.activity_date (some target)))) }
  let s3 := { s2 with work_records := (s2.work_records.filter (fun r =>
      !(decide (r.chat_id = chat) && decide (r.user_id = user) &&
        decide (r.record_date = target)))) }
  { s3 with users := (s3.users.map (fun u =>
      if decide (u.chat_id = chat) && decide (u.user_id = user) &&
         (decide (u.total_activity_count > 0) ||
          decide (u.total_accumulated_time > 0) ||
          decide (u.total_fines > 0) || u.current_activity.isSome ||
          u.checkin_message_id.isSome) then
        { u with total_activity_count := 0, total_accumulated_time := 0,
                 total_fines := 0, total_overtime_time := 0,
                 overtime_count := 0, current_activity := none,
                 activity_start_time := none, checkin_message_id := none,
                 last_updated := some nlu }
      else u)) }

/-- Group branch of the hard reset (`database.py` lines 975-1012):
delete the three tables' rows for the whole chat and zero every user row
of the chat unconditionally. -/
def reset_group_rows (target nlu : CivilDate) (chat : Int)
    (s : DBState) : DBState :=
  let s1 := { s with daily_statistics := (s.daily_statistics.filter (fun r =>
      !(decide (r.chat_id = chat) && sqlDateEq r.statistic_date (some target)))) }
  let s2 := { s1 with user_activities := (s1.user_activities.filter (fun r =>
      !(decide (r.chat_id = chat) && sqlDateEq r.activity_date (some target)))) }
  let s3 := { s2 with work_records := (s2.work_records.filter (fun r =>
      !(decide (r.chat_id = chat) && decide (r.record_date = target)))) }
  { s3 with users := (s3.users.map (fun u =>
      if decide (u.chat_id = chat) then
        { u with total_activity_count := 0, total_accumulated_time := 0,
                 total_fines := 0, total_overtime_time := 0,
                 overtime_count := 0, current_activity := none,
                 activity_start_time := none, checkin_message_id := none,
                 last_updated := some nlu }
      else u)) }

/-- The body of `reset_user_daily_data` up to its outer `except`:
date validation (lines 850-858) and the transaction (lines 860-1012),
with `current_biz_date` the value returned by
`await self.get_business_date(chat_id)`.  A non-date, non-`None`
`target_date` raises `ValueError` (line 856); Python's
`max(target_date, current_biz_date)` (line 858) raises `TypeError`
unless both operands are dates.  `user_id` follows the source's
`if user_id:` split between the single-user and group branches
(assuming a nonzero user id, as Telegram ids are). -/
def reset_body (current_biz_date : Option CivilDate) (now : DateTime)
    (time_limit : Int) (rates : List (Nat × Int)) (chat : Int)
    (user_id : Option Int) (target_date : PyDateArg) (s : DBState) :
    Except PyErr DBState :=
  let td : Except PyErr (Option CivilDate) :=
    match target_date with
    | .noneArg => .ok current_biz_date
    | .dateArg d => .ok (some d)
    | .otherArg _ => .error .valueError
  match td with
  | .error e => .error e
  | .ok tdv =>
    match tdv, current_biz_date with
    | some t, some c =>
        let nlu := CivilDate.maxD t c
        match user_id with
        | some u =>
            .ok (reset_single_user_rows t nlu chat u
              (settle_cross_day now time_limit rates chat u s))
        | none => .ok (reset_group_rows t nlu chat s)
    | _, _ => .error .typeError

/-- Method `reset_user_daily_data` as the caller sees it: the whole body sits
inside `try: ... except Exception: return False` (lines 850, 1014-1019),
so any raised error is converted into a `False` return with the
transaction rolled back (no body write survives), and a completed body
returns `True`. -/
def reset_user_daily_data (now : DateTime) (time_limit : Int)
    (rates : List (Nat × Int)) (chat : Int) (user_id : Option Int)
    (target_date : PyDateArg) (s : DBState) : Bool × DBState :=
  match reset_body (get_business_date chat) now time_limit rates chat
      user_id target_date s with
  | .ok s2 => (true, s2)
  | .error _ => (false, s)

/-! ## Soft/hard group reset: `soft_reset_group`
(`database.py` lines 1023-1092) -/

/-- Transaction body of `soft_reset_group` with `today` the value of
`await self.get_business_date(chat_id)`: soft mode flags the chat's
daily_statistics rows for `today` with `is_soft_reset = TRUE`, hard mode
deletes them; both modes delete the day's user_activities and
work_records rows and zero every user row of the chat.  The body raises
nothing in this model, so the function returns `True`. -/
def soft_reset_group_core (today : Option CivilDate) (mode : String)
    (chat : Int) (s : DBState) : Bool × DBState :=
  let s1 :=
    if mode = "soft" then
      { s with daily_statistics := (s.daily_statistics.map (fun r =>
          if decide (r.chat_id = chat) && sqlDateEq r.statistic_date today then
            { r with is_soft_reset := true }
          else r)) }
    else
      { s with daily_statistics := (s.daily_statistics.filter (fun r =>
          !(decide (r.chat_id = chat) && sqlDateEq r.statistic_date today))) }
  let s2 := { s1 with user_activities := (s1.user_activities.filter (fun r =>
      !(decide (r.chat_id = chat) && sqlDateEq r.activity_date today))) }
  let s3 := { s2 with work_records := (s2.work_records.filter (fun r =>
      !(decide (r.chat_id = chat) && sqlDateEq (some r.record_date) today))) }
  let s4 := { s3 with users := (s3.users.map (fun u =>
      if decide (u.chat_id = chat) then
        { u with total_activity_count := 0, total_accumulated_time := 0,
                 total_fines := 0, total_overtime_time := 0,
                 overtime_count := 0, current_activity := none,
                 activity_start_time := none, checkin_message_id := none,
                 last_updated := today }
      else u)) }
  (true, s4)

/-- Method `soft_reset_group` as run by the program (business date from the
effective `get_business_date`). -/
def soft_reset_group (mode : String) (chat : Int) (s : DBState) :
    Bool × DBState :=
  soft_reset_group_core (get_business_date chat) mode chat s

/-! ## Reporting: the aggregation query of `get_group_statistics`
(`database.py` lines 1892-1922) -/

/-- The rows the `get_group_statistics` SELECT scans:
`WHERE ds.chat_id = $1 AND ds.statistic_date = $2` (SQL equality, so a
NULL parameter or NULL column matches nothing). -/
def query_daily_rows (s : DBState) (chat : Int)
    (dateParam : Option CivilDate) : List DailyStatRow :=
  s.daily_statistics.filter (fun r =>
    decide (r.chat_id = chat) && sqlDateEq r.statistic_date dateParam)

/-- Aggregates `SUM(ds.activity_count), SUM(ds.accumulated_time)` of the GROUP BY
`(user_id, activity_name)` bucket for one key — the figure
`get_group_statistics` reports for that user and activity. -/
def daily_group_sum (s : DBState) (chat : Int)
    (dateParam : Option CivilDate) (user : Int) (act : String) : Int × Int :=
  (query_daily_rows s chat dateParam).foldl
    (fun acc r =>
      if decide (r.user_id = user) && decide (r.activity_name = act) then
        (acc.1 + r.activity_count, acc.2 + r.accumulated_time)
      else acc)
    (0, 0)

/-- The rows `get_group_statistics(chat_id)` aggregates when called
without an explicit date (it then uses the effective
`get_business_date`). -/
def get_group_statistics_rows (chat : Int) (s : DBState) :
    List DailyStatRow :=
  query_daily_rows s chat (get_business_date chat)

/-! ## Shift records: `add_work_record`
(`database.py` lines 1291-1452) with the effective
`_calculate_daily_work_hours` (lines 1575-1665) -/

def insertByTime (x : WorkRecordRow) :
    List WorkRecordRow → List WorkRecordRow
  | [] => [x]
  | y :: ys =>
      if x.checkin_time < y.checkin_time then x :: y :: ys
      else y :: insertByTime x ys

/-- Ordering `ORDER BY checkin_time` (stable on equal clock times). -/
def sortByTime (l : List WorkRecordRow) : List WorkRecordRow :=
  l.foldr insertByTime []

def work_pairs_fold (acc : Int × Option Nat) (r : WorkRecordRow) :
    Int × Option Nat :=
  if r.checkin_type = "work_start" then (acc.1, some r.checkin_time)
  else if r.checkin_type = "work_end" then
    match acc.2 with
    | some st =>
        let d : Int := ((r.checkin_time : Int) - (st : Int)) * 60
        (if 0 < d then acc.1 + d else acc.1, none)
    | none => acc
  else acc

/-- Work seconds of one day (`_calculate_daily_work_hours`): walk the
day's records in clock order pairing each `work_start` with the next
`work_end`, accumulating only positive differences. -/
def work_seconds_of (records : List WorkRecordRow) : Int :=
  ((sortByTime records).foldl work_pairs_fold (0, none)).1

/-- The work-day idempotence guard (`database.py` lines 1375-1405): on
a completed work day, look up whether a `work_days` row already exists
for this user and month, and only when none does, insert one with
`work_days = 1` (the INSERT's `ON CONFLICT ... work_days + 1` clause
cannot fire in that case, since the lookup found no row with its exact
conflict key). -/
def wd_insert (chat user : Int) (d : CivilDate)
    (l : List MonthlyStatRow) : List MonthlyStatRow :=
  if l.any (msKey chat user d "work_days") then l
  else
    upsert (msKey chat user d "work_days")
      (fun r => { r with work_days := r.work_days + 1 })
      ⟨chat, user, d, "work_days", 0, 0, 1, 0⟩ l

/-- Method `add_work_record(chat_id, user_id, record_date, checkin_type,
checkin_time, status, time_diff_minutes, fine_amount)`: upsert the raw
work record; book a `work_fine` daily row when fined; on a `work_end`
that completes a same-day `work_start`, count the work day in
MonthlyStatistics under `work_days` — but only when no `work_days` row
exists yet for that user and month — and accumulate the day's work
seconds under `work_hours`; finally book fines into the user row and the
monthly `total_fines` row. -/
def add_work_record (chat user : Int) (record_date : CivilDate)
    (checkin_type : String) (checkin_time : Nat) (status : String)
    (time_diff_minutes : ℚ) (fine_amount : Int) (s : DBState) : DBState :=
  let statistic_date := monthStart record_date
  let s1 : DBState := { s with work_records :=
      (upsert (wrKey chat user record_date checkin_type)
        (fun r => { r with checkin_time := checkin_time, status := status,
                           time_diff_minutes := time_diff_minutes,
                           fine_amount := fine_amount })
        ⟨chat, user, record_date, checkin_type, checkin_time, status,
          time_diff_minutes, fine_amount⟩
        s.work_records) }
  let s2 : DBState :=
    if fine_amount > 0 then
      { s1 with daily_statistics :=
          (upsert (dsKey chat user (some record_date) "work_fine" false)
            (fun r => { r with activity_count := r.activity_count + 1,
                               accumulated_time := r.accumulated_time + fine_amount })
            ⟨chat, user, some record_date, "work_fine", 1, fine_amount, false⟩
            s1.daily_statistics) }
    else s1
  let s3 : DBState :=
    if checkin_type = "work_end" then
      let has_work_start := s2.work_records.any (fun r =>
        decide (r.chat_id = chat) && decide (r.user_id = user) &&
          decide (r.record_date = record_date) &&
          decide (r.checkin_type = "work_start"))
      if has_work_start then
        let s2a : DBState :=
          { s2 with monthly_statistics :=
              (wd_insert chat user statistic_date s2.monthly_statistics) }
        let ws := work_seconds_of (s2a.work_records.filter (fun r =>
          decide (r.chat_id = chat) && decide (r.user_id = user) &&
            decide (r.record_date = record_date)))
        if ws > 0 then
          { s2a with monthly_statistics :=
              (upsert (msKey chat user statistic_date "work_hours")
                (fun r => { r with accumulated_time := r.accumulated_time + ws })
                ⟨chat, user, statistic_date, "work_hours", 0, ws, 0, 0⟩
                s2a.monthly_statistics) }
        else s2a
      else s2
    else s2
  if fine_amount > 0 then
    let s4 : DBState := { s3 with users := (s3.users.map (fun u =>
        if decide (u.chat_id = chat) && decide (u.user_id = user) then
          { u with total_fines := u.total_fines + fine_amount }
        else u)) }
    { s4 with monthly_statistics :=
        (upsert (msKey chat user statistic_date "total_fines")
          (fun r => { r with accumulated_time := r.accumulated_time + fine_amount })
          ⟨chat, user, statistic_date, "total_fines", 0, fine_amount, 0, 0⟩
          s4.monthly_statistics) }
  else s3

/-- The `work_days` figure stored for a user and month. -/
def getWorkDays (s : DBState) (chat user : Int) (month : CivilDate) : Int :=
  ((s.monthly_statistics.find? (msKey chat user month "work_days")).map
    (fun r => r.work_days)).getD 0

/-- Argument bundle of one `add_work_record` call. -/
structure WorkCall where
  chat : Int
  user : Int
  record_date : CivilDate
  checkin_type : String
  checkin_time : Nat
  status : String
  time_diff_minutes : ℚ
  fine_amount : Int
deriving DecidableEq

def run_work_records (calls : List WorkCall) (s : DBState) : DBState :=
  calls.foldl (fun st c =>
    add_work_record c.chat c.user c.record_date c.checkin_type
      c.checkin_time c.status c.time_diff_minutes c.fine_amount st) s

example : calc_fine_for_segments [(10, 100), (30, 300)] 45 = 300 := by decide
example : calc_fine_for_segments [(10, 100), (30, 300)] 30 = 300 := by decide
example : calc_fine_for_segments [(10, 100), (30, 300)] 5 = 100 := by decide
example : calc_fine_for_segments [(10, 0), (30, 300)] 5 = 300 := by decide
example :
    calculate_work_fine [("work_start", [("60", 50), ("120", 100)])] "work_start" 75 = 100 := by
  decide

/-! ## Shared concrete scenario data -/

/-- An idle user of chat 7. -/
def idleUser : UserRow := ⟨7, 42, none, none, 0, 0, 0, 0, 0, none, none⟩

def idleDB : DBState := ⟨[idleUser], [], [], [], []⟩

/-- Instant 2024-02-29 23:00, the start of a cross-midnight activity. -/
def febStart : DateTime := ⟨⟨2024, 2, 29⟩, 23 * 3600⟩

/-- Instant 2024-03-01 05:00, when the reset runs. -/
def marFirst : DateTime := ⟨⟨2024, 3, 1⟩, 5 * 3600⟩

/-- The same user with a "meal" in progress since `febStart`. -/
def busyUser : UserRow :=
  ⟨7, 42, some "meal", some febStart, 100, 1, 0, 0, 0, none, none⟩

def busyDB : DBState := ⟨[busyUser], [], [], [], []⟩

/-- The fine tiers of the spec scenarios: 10 minutes ↦ 100, 30 ↦ 300. -/
def tierRates : List (Nat × Int) := [(10, 100), (30, 300)]

/-! ## Claim theorems -/

/-- C1.  The claim describes `get_business_date` as returning
`now.date() - 1 day` before the group's reset instant and `now.date()`
from then on.  That is what the implementation at `database.py` lines
35-68 computes —`get_business_date_impl` attributes 03:59 on 2024-03-15
to 2024-03-14 and 04:00 to 2024-03-15 under reset time 04:00, and with
the 00:00 default the business date equals the calendar date — but the
running class does not execute it: Python keeps the last of the four
`get_business_date` definitions in the class body, the placeholder at
lines 2035-2040, so every call returns `None` instead of a date. -/
theorem business_date_stub_shadows_impl :
    get_business_date 7 = none ∧
    get_business_date_impl 0 0 (some ⟨4, 0⟩)
      ⟨⟨2024, 3, 15⟩, 3 * 3600 + 59 * 60⟩ = ⟨2024, 3, 14⟩ ∧
    get_business_date_impl 0 0 (some ⟨4, 0⟩)
      ⟨⟨2024, 3, 15⟩, 4 * 3600⟩ = ⟨2024, 3, 15⟩ ∧
    get_business_date_impl 0 0 none ⟨⟨2024, 3, 15⟩, 0⟩ = ⟨2024, 3, 15⟩ := by
  decide

/-- C2.  An exception raised at any point inside the
`complete_user_activity` transaction (modelled by the failure oracle
`some i` for any statement index `i` within the statement list) makes
the call return with the exception propagated (`raised = true`) and the
database exactly as it was: none of the daily_statistics /
user_activities / monthly_statistics / users writes survive the
rollback, and in particular the user's `current_activity` and
`activity_start_time` are unchanged. -/
theorem complete_activity_tx_rollback
    (real_today : CivilDate) (time_limit : Int) (chat user : Int)
    (act : String) (elapsed fine : Int) (is_ot : Bool) (i : Nat)
    (s : DBState)
    (hi : i < (cua_stmts (get_business_date chat) real_today time_limit
      chat user act elapsed fine is_ot).length) :
    complete_user_activity_tx real_today time_limit chat user act
      elapsed fine is_ot (some i) s = ⟨true, s⟩ := by
  simp only [complete_user_activity_tx, runTransaction]
  rw [if_pos hi]

theorem complete_activity_tx_rollback_witness :
    0 < (cua_stmts (get_business_date 7) ⟨2024, 3, 15⟩ 30
      7 42 "meal" 3000 0 false).length ∧
    complete_user_activity_tx ⟨2024, 3, 15⟩ 30 7 42 "meal" 3000 0 false
      (some 0) busyDB = ⟨true, busyDB⟩ :=
  ⟨by decide,
   complete_activity_tx_rollback ⟨2024, 3, 15⟩ 30 7 42 "meal" 3000 0
     false 0 busyDB (by decide)⟩

/-- C7 counterexample.  The claim says a wrong-typed `target_date` makes
`reset_user_daily_data` raise a `ValueError` to the caller, never
converted into a boolean failure result.  In the source the
`raise ValueError` at line 856 sits inside the function's own
`try: ... except Exception` (lines 850, 1014-1019), so the caller gets
the boolean `False` — exactly the conversion the claim rules out — and
never sees the exception. -/
theorem reset_wrong_type_cex :
    reset_user_daily_data marFirst 30 tierRates 7 (some 42)
      (.otherArg "2024-03-01") idleDB = (false, idleDB) ∧
    reset_body (get_business_date 7) marFirst 30 tierRates 7 (some 42)
      (.otherArg "2024-03-01") idleDB = .error .valueError :=
  ⟨rfl, rfl⟩

/-- C7 as amended.  For every call with a `target_date` that is neither
`None` nor a date, the body of `reset_user_daily_data` raises
`ValueError` immediately — before any state is touched and without
coercing the value — but the function's own catch-all handler converts
it into a `False` return with the database unchanged; the exception does
not reach the caller. -/
theorem reset_wrong_type_caught_returns_false
    (txt : String) (now : DateTime) (time_limit : Int)
    (rates : List (Nat × Int)) (chat : Int) (uid : Option Int)
    (s : DBState) :
    reset_body (get_business_date chat) now time_limit rates chat uid
      (.otherArg txt) s = .error .valueError ∧
    reset_user_daily_data now time_limit rates chat uid
      (.otherArg txt) s = (false, s) :=
  ⟨rfl, rfl⟩

/-- C8.  A shift check-in 75 minutes off, against configured shift
segments in which the 60-minute tier maps to 50 and the 120-minute tier
to 100, is fined 100: `calculate_work_fine` takes the 120-tier because
75 exceeds 60 but not 120. -/
theorem work_fine_75_second_tier
    (work_fine_rates : List (String × List (String × Int)))
    (checkin_type : String) (fr : List (String × Int))
    (hct : work_fine_rates.lookup checkin_type = some fr)
    (_h60 : fr.lookup "60" = some 50)
    (h120 : fr.lookup "120" = some 100) :
    calculate_work_fine work_fine_rates checkin_type 75 = 100 := by
  simp only [calculate_work_fine, hct, h120]
  norm_num

theorem work_fine_75_second_tier_witness :
    ([("work_start", [("60", (50 : Int)), ("120", 100), ("180", 200),
        ("240", 300), ("max", 500)])].lookup "work_start" =
      some [("60", 50), ("120", 100), ("180", 200), ("240", 300),
        ("max", 500)]) ∧
    calculate_work_fine
      [("work_start", [("60", 50), ("120", 100), ("180", 200),
        ("240", 300), ("max", 500)])] "work_start" 75 = 100 :=
  ⟨by decide,
   work_fine_75_second_tier
     [("work_start", [("60", 50), ("120", 100), ("180", 200),
       ("240", 300), ("max", 500)])] "work_start"
     [("60", 50), ("120", 100), ("180", 200), ("240", 300), ("max", 500)]
     (by decide) (by decide) (by decide)⟩

/-- C10.  `calculate_work_fine` only looks at the absolute value of the
signed minute delta, so being early by `m` minutes is fined like being
late by `m` minutes, and a delta of exactly 0 is never fined. -/
theorem work_fine_abs_symmetry
    (work_fine_rates : List (String × List (String × Int)))
    (checkin_type : String) (m : ℚ) :
    calculate_work_fine work_fine_rates checkin_type m =
      calculate_work_fine work_fine_rates checkin_type (-m) ∧
    calculate_work_fine work_fine_rates checkin_type 0 = 0 := by
  constructor
  · simp only [calculate_work_fine, abs_neg]
  · cases hl : work_fine_rates.lookup checkin_type <;>
      simp [calculate_work_fine, hl]

/-- C3.  Two `complete_user_activity` calls with identical arguments on
the same day.  Because the effective `get_business_date` returns `None`,
the daily_statistics and user_activities inserts carry a NULL date key,
their `ON CONFLICT` clauses never fire (NULL keys never conflict), and
the second call inserts a second row with `activity_count = 1` instead
of updating the first to 2 — though no unique-constraint failure occurs
and the monthly row (keyed by the real wall-clock month) does reach
count 2.  With the business date resolved to an actual date, as the
shadowed implementation would supply and the statement design intends,
both calls hit the same row and all three tables show
`activity_count = 2` and `accumulated_time = 2 × elapsed`. -/
theorem complete_activity_double_call_divergence :
    (let s2 := complete_user_activity ⟨2024, 3, 15⟩ 30 7 42 "meal" 3000 0 false
        (complete_user_activity ⟨2024, 3, 15⟩ 30 7 42 "meal" 3000 0 false idleDB)
     s2.daily_statistics =
       [⟨7, 42, none, "meal", 1, 3000, false⟩,
        ⟨7, 42, none, "meal", 1, 3000, false⟩] ∧
     s2.user_activities =
       [⟨7, 42, none, "meal", 1, 3000⟩, ⟨7, 42, none, "meal", 1, 3000⟩] ∧
     s2.monthly_statistics = [⟨7, 42, ⟨2024, 3, 1⟩, "meal", 2, 6000, 0, 0⟩]) ∧
    (let c2 := complete_user_activity_core (some ⟨2024, 3, 15⟩) ⟨2024, 3, 15⟩
        30 7 42 "meal" 3000 0 false
        (complete_user_activity_core (some ⟨2024, 3, 15⟩) ⟨2024, 3, 15⟩
          30 7 42 "meal" 3000 0 false idleDB)
     c2.daily_statistics = [⟨7, 42, some ⟨2024, 3, 15⟩, "meal", 2, 6000, false⟩] ∧
     c2.user_activities = [⟨7, 42, some ⟨2024, 3, 15⟩, "meal", 2, 6000⟩] ∧
     c2.monthly_statistics = [⟨7, 42, ⟨2024, 3, 1⟩, "meal", 2, 6000, 0, 0⟩]) := by
  decide

/-- C4.  Hard reset of a single user whose "meal" has been running since
2024-02-29 23:00 when the reset fires at 2024-03-01 05:00 (elapsed 21600
s; limit 30 min; overtime 19800 s = 330 min; tiers 10 ↦ 100, 30 ↦ 300 so
the saturated fine is 300).  In the running program the call always
returns `False` and changes nothing — `current_biz_date` is the `None`
of the placeholder `get_business_date`, so `max(target_date,
current_biz_date)` at line 858 raises `TypeError` before the transaction
opens, the settlement never runs and the user's activity is still in
progress (this holds whether or not a target date is passed).  The
transaction body itself (lines 863-955), run with the business date
resolved, does implement the claim: the settlement books the elapsed
time into the MonthlyStatistics row of the activity *start* month
2024-02, bumps the user's fine/overtime counters by the tier schedule
before the deletions, and the reset leaves `current_activity` NULL. -/
theorem hard_reset_cross_day_divergence :
    reset_user_daily_data marFirst 30 tierRates 7 (some 42) .noneArg busyDB =
      (false, busyDB) ∧
    reset_user_daily_data marFirst 30 tierRates 7 (some 42)
      (.dateArg ⟨2024, 3, 1⟩) busyDB = (false, busyDB) ∧
    ((findUser busyDB 7 42).map (fun u => u.current_activity)) =
      some (some "meal") ∧
    (settle_cross_day marFirst 30 tierRates 7 42 busyDB).monthly_statistics =
      [⟨7, 42, ⟨2024, 2, 1⟩, "meal", 1, 21600, 0, 0⟩] ∧
    ((findUser (settle_cross_day marFirst 30 tierRates 7 42 busyDB) 7 42).map
      (fun u => (u.total_fines, u.overtime_count, u.total_overtime_time))) =
      some (300, 1, 19800) ∧
    ((reset_body (some ⟨2024, 3, 1⟩) marFirst 30 tierRates 7 (some 42)
        .noneArg busyDB).toOption.map
      (fun s => (s.monthly_statistics,
        (findUser s 7 42).map (fun u => u.current_activity)))) =
      some ([⟨7, 42, ⟨2024, 2, 1⟩, "meal", 1, 21600, 0, 0⟩], some none) := by
  decide

/-- C6.  A "meal" of 600 s, then a soft reset, then a second "meal" of
900 s.  In the running program the soft reset reports success but flags
nothing — its UPDATE compares `statistic_date` with the NULL returned by
the placeholder `get_business_date`, which matches no row (and the rows
written by `complete_user_activity` carry NULL dates themselves) — and a
subsequent `get_group_statistics` scan for the business date returns no
rows at all even though daily_statistics is non-empty.  With business
dates resolved, the transaction does what the claim says: the pre-reset
row is kept and flagged `is_soft_reset = TRUE`, the post-reset activity
creates a fresh unflagged row under the same date, and the aggregation
query's SUM for the (user 42, "meal") key returns the combined
(2, 1500), not just the post-reset value. -/
theorem soft_reset_audit_divergence :
    (let e1 := complete_user_activity ⟨2024, 3, 15⟩ 30 7 42 "meal" 600 0 false idleDB
     (soft_reset_group "soft" 7 e1).1 = true ∧
     (soft_reset_group "soft" 7 e1).2.daily_statistics =
       [⟨7, 42, none, "meal", 1, 600, false⟩] ∧
     (let e3 := complete_user_activity ⟨2024, 3, 15⟩ 30 7 42 "meal" 900 0 false
        (soft_reset_group "soft" 7 e1).2
      get_group_statistics_rows 7 e3 = [] ∧ e3.daily_statistics ≠ [])) ∧
    (let d : CivilDate := ⟨2024, 3, 15⟩
     let i1 := complete_user_activity_core (some d) d 30 7 42 "meal" 600 0 false idleDB
     let i2 := (soft_reset_group_core (some d) "soft" 7 i1).2
     let i3 := complete_user_activity_core (some d) d 30 7 42 "meal" 900 0 false i2
     i2.daily_statistics = [⟨7, 42, some d, "meal", 1, 600, true⟩] ∧
     i3.daily_statistics =
       [⟨7, 42, some d, "meal", 1, 600, true⟩,
        ⟨7, 42, some d, "meal", 1, 900, false⟩] ∧
     daily_group_sum i3 7 (some d) 42 "meal" = (2, 1500)) := by
  decide

/-! ## C5: the tier walk of `calculate_fine` -/

theorem find?_sorted_min {p : Nat → Bool} :
    ∀ {l : List Nat}, List.Sorted (· ≤ ·) l → ∀ {a : Nat},
      l.find? p = some a → ∀ b ∈ l, p b = true → a ≤ b := by
  intro l
  induction l with
  | nil => intro _ a h; simp at h
  | cons x xs ih =>
    intro hs a h b hb hpb
    rcases List.sorted_cons.mp hs with ⟨hx, hxs⟩
    cases hpx : p x with
    | true =>
      rw [List.find?_cons_of_pos _ hpx] at h
      injection h with h2
      subst h2
      rcases List.mem_cons.mp hb with rfl | hb2
      · exact le_refl _
      · exact hx _ hb2
    | false =>
      have hpx2 : ¬ p x = true := by rw [hpx]; exact Bool.false_ne_true
      rw [List.find?_cons_of_neg _ hpx2] at h
      rcases List.mem_cons.mp hb with rfl | hb2
      · rw [hpx] at hpb; cases hpb
      · exact ih hxs h b hb2 hpb

theorem sorted_le_of_getLast? :
    ∀ {l : List Nat}, List.Sorted (· ≤ ·) l → ∀ {m : Nat},
      l.getLast? = some m → ∀ b ∈ l, b ≤ m := by
  intro l
  induction l with
  | nil => intro _ m h; simp at h
  | cons x xs ih =>
    intro hs m h b hb
    rcases List.sorted_cons.mp hs with ⟨hx, hxs⟩
    cases xs with
    | nil =>
      simp [List.getLast?] at h
      rcases List.mem_cons.mp hb with rfl | h2
      · rw [h]
      · simp at h2
    | cons y ys =>
      rw [List.getLast?_cons_cons] at h
      rcases List.mem_cons.mp hb with rfl | hb2
      · have hne : (y :: ys : List Nat) ≠ [] := List.cons_ne_nil _ _
        rw [List.getLast?_eq_getLast_of_ne_nil hne] at h
        injection h with h2
        exact hx m (h2 ▸ List.getLast_mem hne)
      · exact ih hxs h b hb2

theorem lookup_exists_of_mem_keys :
    ∀ {l : List (Nat × Int)} {k : Nat}, k ∈ l.map Prod.fst →
      ∃ v, l.lookup k = some v := by
  intro l
  induction l with
  | nil => intro k h; simp at h
  | cons x xs ih =>
    intro k h
    rcases x with ⟨k1, v1⟩
    by_cases hk : k = k1
    · subst hk
      exact ⟨v1, by simp [List.lookup]⟩
    · have hb : (k == k1) = false := beq_eq_false_iff_ne.mpr hk
      have h2 : k ∈ xs.map Prod.fst := by
        rcases List.mem_cons.mp h with h3 | h3
        · exact absurd h3 hk
        · exact h3
      rcases ih h2 with ⟨v, hv⟩
      exact ⟨v, by simp [List.lookup, hb, hv]⟩

theorem mem_of_lookup_eq_some :
    ∀ {l : List (Nat × Int)} {k : Nat} {v : Int},
      l.lookup k = some v → (k, v) ∈ l := by
  intro l
  induction l with
  | nil => intro k v h; simp [List.lookup] at h
  | cons x xs ih =>
    intro k v h
    rcases x with ⟨k1, v1⟩
    by_cases hk : k = k1
    · subst hk
      simp [List.lookup] at h
      exact List.mem_cons.mpr (Or.inl (by rw [h]))
    · have hb : (k == k1) = false := beq_eq_false_iff_ne.mpr hk
      simp [List.lookup, hb] at h
      exact List.mem_cons.mpr (Or.inr (ih h))

/-- C5 counterexample.  The claim, as stated, demands the amount of the
first threshold at or above the overtime minutes: for tiers 10 ↦ 0,
30 ↦ 300 and 5 minutes of overtime that first threshold is 10 and its
configured amount is 0 — but `calculate_fine` returns 300, because its
fallback (`if applicable_fine == 0 and segments`) cannot distinguish "no
threshold matched" from "the matched amount is 0" and jumps to the
largest tier. -/
theorem calculate_fine_zero_amount_cex :
    calculate_fine [("meal", [(10, 0), (30, 300)])] "meal" 5 = 300 ∧
    (([(10, 0), (30, 300)] : List (Nat × Int)).lookup 10).getD 0 = 0 := by
  decide

/-- C5 as amended.  For every activity whose configured fine tiers are
non-empty *and all carry nonzero amounts*, and every positive overtime:
if some threshold is at least the overtime minutes, `calculate_fine`
returns the configured amount of the least such threshold (inclusive at
the boundary); otherwise it returns the largest threshold's amount —
saturating, and in either case nonzero. -/
theorem calculate_fine_first_match_or_saturate
    (fine_rates : List (String × List (Nat × Int))) (activity : String)
    (segs : List (Nat × Int)) (m : ℚ)
    (hact : fine_rates.lookup activity = some segs)
    (hne : segs ≠ []) (hpos : ∀ p ∈ segs, p.2 ≠ 0) (_hm : 0 < m) :
    (∃ t ∈ segs.map Prod.fst, m ≤ (t : ℚ) ∧
        (∀ u ∈ segs.map Prod.fst, m ≤ (u : ℚ) → t ≤ u) ∧
        calculate_fine fine_rates activity m = (segs.lookup t).getD 0 ∧
        calculate_fine fine_rates activity m ≠ 0) ∨
    ((∀ t ∈ segs.map Prod.fst, (t : ℚ) < m) ∧
      ∃ t ∈ segs.map Prod.fst, (∀ u ∈ segs.map Prod.fst, u ≤ t) ∧
        calculate_fine fine_rates activity m = (segs.lookup t).getD 0 ∧
        calculate_fine fine_rates activity m ≠ 0) := by
  have hcf : calculate_fine fine_rates activity m =
      calc_fine_for_segments segs m := by
    simp [calculate_fine, hact]
  have hperm : List.Perm (List.insertionSort (· ≤ ·) (segs.map Prod.fst))
      (segs.map Prod.fst) := List.perm_insertionSort _ _
  have hsorted : List.Sorted (· ≤ ·)
      (List.insertionSort (· ≤ ·) (segs.map Prod.fst)) :=
    List.sorted_insertionSort _ _
  cases hfind : (List.insertionSort (· ≤ ·) (segs.map Prod.fst)).find?
      (fun (seg : Nat) => decide (m ≤ (seg : ℚ))) with
  | some t =>
    have hpt : m ≤ (t : ℚ) := by
      have := List.find?_some hfind
      simpa using this
    have htT := List.mem_of_find?_eq_some hfind
    have htK : t ∈ segs.map Prod.fst := hperm.mem_iff.mp htT
    obtain ⟨v, hv⟩ := lookup_exists_of_mem_keys htK
    have hv0 : v ≠ 0 := hpos _ (mem_of_lookup_eq_some hv)
    have hval : calc_fine_for_segments segs m = v := by
      simp only [calc_fine_for_segments, hfind, hv, Option.getD_some]
      rw [if_neg]
      intro hcon
      exact hv0 hcon.1
    left
    refine ⟨t, htK, hpt, ?_, ?_, ?_⟩
    · intro u hu hmu
      exact find?_sorted_min hsorted hfind u (hperm.mem_iff.mpr hu)
        (decide_eq_true hmu)
    · rw [hcf, hval, hv]; rfl
    · rw [hcf, hval]; exact hv0
  | none =>
    have hallT : ∀ b ∈ List.insertionSort (· ≤ ·) (segs.map Prod.fst),
        ¬ (m ≤ (b : ℚ)) := by
      intro b hb
      have := List.find?_eq_none.mp hfind b hb
      simpa using this
    have hallK : ∀ t ∈ segs.map Prod.fst, (t : ℚ) < m := by
      intro t ht
      exact not_le.mp (hallT t (hperm.mem_iff.mpr ht))
    have hTne : List.insertionSort (· ≤ ·) (segs.map Prod.fst) ≠ [] := by
      intro h0
      apply hne
      have hK : segs.map Prod.fst = [] := (h0 ▸ hperm).symm.eq_nil
      exact List.map_eq_nil_iff.mp hK
    have hmx := List.getLast?_eq_getLast_of_ne_nil hTne
    have hmxT : (List.insertionSort (· ≤ ·) (segs.map Prod.fst)).getLast hTne
        ∈ List.insertionSort (· ≤ ·) (segs.map Prod.fst) :=
      List.getLast_mem hTne
    have hmxK := hperm.mem_iff.mp hmxT
    obtain ⟨v, hv⟩ := lookup_exists_of_mem_keys hmxK
    have hv0 : v ≠ 0 := hpos _ (mem_of_lookup_eq_some hv)
    have hval : calc_fine_for_segments segs m = v := by
      simp only [calc_fine_for_segments, hfind, hmx, hv, Option.getD_some]
      rw [if_pos ⟨trivial, hTne⟩]
    right
    refine ⟨hallK, _, hmxK, ?_, ?_, ?_⟩
    · intro u hu
      exact sorted_le_of_getLast? hsorted hmx u (hperm.mem_iff.mpr hu)
    · rw [hcf, hval, hv]; rfl
    · rw [hcf, hval]; exact hv0

theorem calculate_fine_first_match_or_saturate_witness :
    (([("meal", tierRates)].lookup "meal" = some tierRates) ∧
      tierRates ≠ [] ∧ (∀ p ∈ tierRates, p.2 ≠ 0) ∧ (0 : ℚ) < 45) ∧
    ((∃ t ∈ tierRates.map Prod.fst, (45 : ℚ) ≤ (t : ℚ) ∧
        (∀ u ∈ tierRates.map Prod.fst, (45 : ℚ) ≤ (u : ℚ) → t ≤ u) ∧
        calculate_fine [("meal", tierRates)] "meal" 45 =
          (tierRates.lookup t).getD 0 ∧
        calculate_fine [("meal", tierRates)] "meal" 45 ≠ 0) ∨
      ((∀ t ∈ tierRates.map Prod.fst, (t : ℚ) < 45) ∧
        ∃ t ∈ tierRates.map Prod.fst,
          (∀ u ∈ tierRates.map Prod.fst, u ≤ t) ∧
          calculate_fine [("meal", tierRates)] "meal" 45 =
            (tierRates.lookup t).getD 0 ∧
          calculate_fine [("meal", tierRates)] "meal" 45 ≠ 0)) :=
  ⟨⟨by decide, by decide, by decide, by decide⟩,
   calculate_fine_first_match_or_saturate [("meal", tierRates)] "meal"
     tierRates 45 (by decide) (by decide) (by decide) (by decide)⟩

/-! ## C9: the `work_days` idempotence guard of `add_work_record` -/

theorem mem_updateFirst {α : Type} {p : α → Bool} {f : α → α} :
    ∀ {l : List α} {a : α}, a ∈ updateFirst p f l →
      a ∈ l ∨ ∃ b ∈ l, a = f b := by
  intro l
  induction l with
  | nil => intro a h; simp [updateFirst] at h
  | cons x xs ih =>
    intro a h
    by_cases hx : p x
    · rw [updateFirst, if_pos hx] at h
      rcases List.mem_cons.mp h with rfl | h2
      · exact Or.inr ⟨x, List.mem_cons_self _ _, rfl⟩
      · exact Or.inl (List.mem_cons_of_mem _ h2)
    · rw [updateFirst, if_neg hx] at h
      rcases List.mem_cons.mp h with rfl | h2
      · exact Or.inl (List.mem_cons_self _ _)
      · rcases ih h2 with h3 | ⟨b, hb, h4⟩
        · exact Or.inl (List.mem_cons_of_mem _ h3)
        · exact Or.inr ⟨b, List.mem_cons_of_mem _ hb, h4⟩

theorem mem_upsert {α : Type} {p : α → Bool} {f : α → α} {n : α}
    {l : List α} {a : α} (h : a ∈ upsert p f n l) :
    a ∈ l ∨ (∃ b ∈ l, a = f b) ∨ a = n := by
  unfold upsert at h
  by_cases hc : l.any p
  · rw [if_pos hc] at h
    rcases mem_updateFirst h with h1 | h2
    · exact Or.inl h1
    · exact Or.inr (Or.inl h2)
  · rw [if_neg hc] at h
    rcases List.mem_append.mp h with h1 | h2
    · exact Or.inl h1
    · rcases List.mem_singleton.mp h2 with rfl
      exact Or.inr (Or.inr rfl)

/-- The invariant the claim asserts: every `work_days` pseudo-activity
row of monthly_statistics carries a counter of at most 1. -/
def workDaysBounded (l : List MonthlyStatRow) : Prop :=
  ∀ r ∈ l, r.activity_name = "work_days" → r.work_days ≤ 1

/-- An upsert whose update function changes neither `activity_name` nor
`work_days`, and whose fresh row is safe, preserves the bound. -/
theorem workDaysBounded_upsert_keep {p : MonthlyStatRow → Bool}
    {f : MonthlyStatRow → MonthlyStatRow} {n : MonthlyStatRow}
    {l : List MonthlyStatRow}
    (hf : ∀ r, (f r).activity_name = r.activity_name ∧
      (f r).work_days = r.work_days)
    (hn : n.activity_name ≠ "work_days" ∨ n.work_days ≤ 1)
    (h : workDaysBounded l) : workDaysBounded (upsert p f n l) := by
  intro r hr hname
  rcases mem_upsert hr with h1 | ⟨b, hb, h4⟩ | h5
  · exact h r h1 hname
  · rcases hf b with ⟨ha, hw⟩
    rw [h4, hw]
    exact h b hb (by rw [← ha, ← h4]; exact hname)
  · subst h5
    rcases hn with hn | hn
    · exact absurd hname hn
    · exact hn

/-- When no conflicting row exists, the `work_days` upsert appends a
fresh row with counter exactly 1 and keeps the rest, preserving the
bound. -/
theorem workDaysBounded_insert_wd {chat user : Int} {d : CivilDate}
    {l : List MonthlyStatRow}
    (hany : l.any (msKey chat user d "work_days") = false)
    (h : workDaysBounded l) :
    workDaysBounded (upsert (msKey chat user d "work_days")
      (fun r => { r with work_days := r.work_days + 1 })
      ⟨chat, user, d, "work_days", 0, 0, 1, 0⟩ l) := by
  unfold upsert
  rw [hany]
  simp only [Bool.false_eq_true, if_false]
  intro r hr hname
  rcases List.mem_append.mp hr with h1 | h2
  · exact h r h1 hname
  · rcases List.mem_singleton.mp h2 with rfl
    norm_num

/-- The guarded `work_days` write preserves the bound: either a row
already exists and nothing happens, or a fresh row with counter 1 is
appended. -/
theorem workDaysBounded_wd_insert {chat user : Int} {d : CivilDate}
    {l : List MonthlyStatRow} (h : workDaysBounded l) :
    workDaysBounded (wd_insert chat user d l) := by
  unfold wd_insert
  by_cases hc : l.any (msKey chat user d "work_days")
  · rw [if_pos hc]; exact h
  · rw [if_neg hc]
    exact workDaysBounded_insert_wd (by simpa using hc) h

/-- One `add_work_record` call preserves the bound: the only statement
that can touch a `work_days` counter is the guarded `wd_insert`, and
every other monthly write changes neither row names nor `work_days`
counters. -/
theorem add_work_record_workDaysBounded (chat user : Int)
    (record_date : CivilDate) (checkin_type : String) (checkin_time : Nat)
    (status : String) (tdm : ℚ) (fine : Int) (s : DBState)
    (h : workDaysBounded s.monthly_statistics) :
    workDaysBounded (add_work_record chat user record_date checkin_type
      checkin_time status tdm fine s).monthly_statistics := by
  unfold add_work_record
  dsimp only
  repeat' split
  all_goals dsimp only
  all_goals
    repeat'
      first
        | exact h
        | apply workDaysBounded_wd_insert
        | (refine workDaysBounded_upsert_keep
            (fun r => ⟨rfl, rfl⟩) (Or.inl (by dsimp only; decide)) ?_)

/-- Two complete work days of user 42 in group 7 within 2024-03: start/end on
the 10th and again on the 11th. -/
def twoWorkDays : List WorkCall :=
  [⟨7, 42, ⟨2024, 3, 10⟩, "work_start", 9 * 60, "ok", 0, 0⟩,
   ⟨7, 42, ⟨2024, 3, 10⟩, "work_end", 18 * 60, "ok", 0, 0⟩,
   ⟨7, 42, ⟨2024, 3, 11⟩, "work_start", 9 * 60, "ok", 0, 0⟩,
   ⟨7, 42, ⟨2024, 3, 11⟩, "work_end", 18 * 60, "ok", 0, 0⟩]

/-- C9.  Starting from any state in which every monthly `work_days` row
is at most 1 (in particular from an empty database), any sequence of
`add_work_record` calls leaves every monthly `work_days` row at most 1:
the counter is only ever written through the existence-guarded insert,
so a second completed work day in the same calendar month is never
counted.  Concretely, after two full work days of the same user in the
same month, the month's `work_days` figure is 1, not 2. -/
theorem work_days_never_exceeds_one (calls : List WorkCall) (s : DBState)
    (h : workDaysBounded s.monthly_statistics) :
    workDaysBounded (run_work_records calls s).monthly_statistics ∧
    getWorkDays (run_work_records twoWorkDays emptyDB) 7 42 ⟨2024, 3, 1⟩ = 1 := by
  constructor
  · induction calls generalizing s with
    | nil => exact h
    | cons c cs ih =>
      exact ih _ (add_work_record_workDaysBounded c.chat c.user
        c.record_date c.checkin_type c.checkin_time c.status
        c.time_diff_minutes c.fine_amount s h)
  · decide

theorem work_days_never_exceeds_one_witness :
    workDaysBounded emptyDB.monthly_statistics ∧
    (workDaysBounded (run_work_records twoWorkDays emptyDB).monthly_statistics ∧
      getWorkDays (run_work_records twoWorkDays emptyDB) 7 42 ⟨2024, 3, 1⟩ = 1) :=
  ⟨fun r hr => absurd hr (by simp [emptyDB]),
   work_days_never_exceeds_one twoWorkDays emptyDB
     (fun r hr => absurd hr (by simp [emptyDB]))⟩
